import Mathlib

/-!
Shallow embedding of the `raindrop-game` repository (files `src/2d.js` and
`src/index.js`): a small immediate-mode 2D drawing library plus a sample
raindrop-catching game.

Modelling conventions:
* JavaScript numbers are modelled as exact rationals (`ℚ`).  The operations
  the verified claims exercise (`+`, `-`, comparison, `%`, `/` by constants)
  are exact on all the concrete inputs appearing below, and the claims under
  study are about control flow and state updates, not float rounding.
* The process-wide mutable singleton `__2djs` of `src/2d.js` is the structure
  `Djs`; functions that mutate it are state-passing functions `… → Djs → Djs`.
* Canvas-context side effects (`ctx.save()`, `ctx.translate(…)`, …) are
  recorded as an ordered list of emitted operations (`ctxOps`), which is all
  the claims need: a primitive "draws nothing" iff it emits no operation.
* The animation-loop closure of `createCanvas` (`animate`, with its captured
  `oldTime`) together with the globals it touches (`frameCount`) is the
  structure `AnimState`; the user hooks `draw` / `mouseMoved` looked up on
  `window` are modelled by presence flags plus invocation counts, since the
  claims quantify over the scheduler's behaviour, not over hook bodies.
  The diagnostic `deltaTime = performance.now() - timestamp` (wall clock) is
  not modelled.
* `Math.PI` is the IEEE-754 double actually stored in `const PI = Math.PI`,
  i.e. the exact rational 884279719003555 / 2^48.
-/

/-- JavaScript truncation toward zero, as used by the `%` operator. -/
def jsTrunc (q : ℚ) : ℤ :=
  if 0 ≤ q then ⌊q⌋ else ⌈q⌉

/-- The JavaScript remainder operator `a % b` (sign of the dividend,
truncated division).  For `b = 0` JavaScript yields `NaN`; no claim
evaluates that case. -/
def jsMod (a b : ℚ) : ℚ :=
  a - b * (jsTrunc (a / b) : ℚ)

/-- JavaScript `Math.round` (round half toward positive infinity). -/
def jsRound (q : ℚ) : ℤ :=
  ⌊q + 1 / 2⌋

/-- `class Color` of `src/2d.js` (lines 180–291): red, green, blue, alpha
components; the constructor defaults `alpha` to 255 and performs no
validation. -/
structure Color where
  red : ℚ
  green : ℚ
  blue : ℚ
  alpha : ℚ := 255
deriving DecidableEq

/-- `makeColor` of `src/2d.js` (line 1135). -/
def makeColor (red green blue : ℚ) (alpha : ℚ := 255) : Color :=
  { red := red, green := green, blue := blue, alpha := alpha }

/-- `Color.prototype.mixWith` (lines 257–262): componentwise average with
`Math.round`, returning `new Color(r, g, b)` — note the constructor's
default alpha. -/
def Color.mixWith (c otherColor : Color) : Color :=
  { red := (jsRound ((c.red + otherColor.red) / 2) : ℚ)
    green := (jsRound ((c.green + otherColor.green) / 2) : ℚ)
    blue := (jsRound ((c.blue + otherColor.blue) / 2) : ℚ) }

/-- `Color.prototype.invert` (lines 274–279). -/
def Color.invert (c : Color) : Color :=
  { red := 255 - c.red, green := 255 - c.green, blue := 255 - c.blue
    alpha := c.alpha }

/-- `const DEGREES = 1` (line 432). -/
def DEGREES : ℚ := 1

/-- `const RADIANS = 2` (line 447). -/
def RADIANS : ℚ := 2

/-- `const PI = Math.PI` (line 531): the exact rational value of the
IEEE-754 double `Math.PI`. -/
def PI : ℚ := 884279719003555 / 281474976710656

/-- `const TWO_PI = Math.PI * 2` (line 542); the doubling is exact. -/
def TWO_PI : ℚ := PI * 2

/-- One recorded canvas-context operation (a call on `__2djs.ctx`). -/
inductive CtxOp where
  | save : CtxOp
  | restore : CtxOp
  | imageSmoothing : Bool → CtxOp
  | translate : ℚ → ℚ → CtxOp
  | rotateBy : ℚ → CtxOp
  | drawImage : String → ℚ → ℚ → ℚ → ℚ → CtxOp
deriving DecidableEq

/-- The `__2djs` singleton of `src/2d.js` (lines 7–30).  The `canvas`/`ctx`
handles are represented by the list of context operations emitted so far;
the declared-but-unused `listeners` array is omitted. -/
structure Djs where
  ctxOps : List CtxOp := []
  frameRate : ℚ := 60
  frameInterval : ℚ := 1000 / 60
  running : Bool := true
  rotation : ℚ := 0
  textSize : ℚ := 20
  fontName : String := "Arial"
  angleMode : ℚ := 1
  mouseMoved : Bool := false
deriving DecidableEq

/-- `function angleMode(mode)` (lines 1880–1886): stores the angle-unit
multiplier (π/180 for `DEGREES`, 1 for `RADIANS`) into `__2djs.angleMode`. -/
def angleMode (mode : ℚ) (st : Djs) : Djs :=
  if mode = DEGREES then { st with angleMode := PI / 180 }
  else if mode = RADIANS then { st with angleMode := 1 }
  else st

/-- `function rotate(degrees)` setter branch (lines 1905–1910). -/
def rotate (degrees : ℚ) (st : Djs) : Djs :=
  { st with rotation := degrees }

/-- `function rotateAdd(degrees)` (lines 1924–1929), verbatim: the wrap test
compares `__2djs.angleMode` (the stored multiplier) with the constants
`DEGREES` and `RADIANS`. -/
def rotateAdd (degrees : ℚ) (st : Djs) : Djs :=
  let st1 :=
    if (st.angleMode = DEGREES ∧ 360 ≤ st.rotation)
        ∨ (st.angleMode = RADIANS ∧ TWO_PI ≤ st.rotation) then
      { st with rotation := 0 }
    else st
  { st1 with rotation := st1.rotation + degrees }

/-- `function frameRate(fps)` (lines 1259–1268).  `none` models calling with
no argument / `null` / `undefined`; the second component of the result is
the returned value (`none` models `undefined`). -/
def frameRate (fps : Option ℚ) (st : Djs) : Djs × Option ℚ :=
  match fps with
  | none => (st, some st.frameRate)
  | some f =>
    if f = st.frameRate then (st, none)
    else ({ st with frameRate := f, frameInterval := 1000 / f }, none)

/-- An `HTMLImageElement` as used by `loadImage`/`image`:
`dataset.loaded` is absent (`none`) until the `onload` handler runs. -/
structure HTMLImage where
  src : String
  width : ℚ := 0
  height : ℚ := 0
  datasetLoaded : Option String := none
deriving DecidableEq

/-- `function loadImage(imagePath)` (lines 1817–1824): returns a fresh
handle whose `dataset.loaded` attribute is not yet set. -/
def loadImage (imagePath : String) : HTMLImage :=
  { src := imagePath }

/-- The `image.onload` handler installed by `loadImage` (line 1820–1822):
sets `dataset.loaded` to the string `"true"`. -/
def imageOnload (img : HTMLImage) : HTMLImage :=
  { img with datasetLoaded := some "true" }

/-- `function image(image, x, y, width, height)` (lines 1847–1861): silently
returns unless `dataset.loaded === 'true'`; otherwise emits the
save/smoothing/translate/rotate/drawImage/restore sequence. -/
def image (img : HTMLImage) (x y : ℚ) (width height : Option ℚ) (st : Djs) :
    Djs :=
  if img.datasetLoaded ≠ some "true" then st
  else
    let dw := width.getD img.width
    let dh := height.getD img.height
    { st with ctxOps := st.ctxOps ++
        [CtxOp.save,
         CtxOp.imageSmoothing false,
         CtxOp.translate (x + dw / 2) (y + dh / 2),
         CtxOp.rotateBy (st.rotation * st.angleMode),
         CtxOp.drawImage img.src (-(dw / 2)) (-(dh / 2)) dw dh,
         CtxOp.restore] }

/-- `function rectCollision(x1, y1, w1, h1, x2, y2, w2, h2)`
(lines 2116–2118). -/
def rectCollision (x1 y1 w1 h1 x2 y2 w2 h2 : ℚ) : Bool :=
  decide (x1 < x2 + w2) && decide (x1 + w1 > x2)
    && decide (y1 < y2 + h2) && decide (y1 + h1 > y2)

/-- The `mousemove` listener installed by `createCanvas` (lines 1182–1186):
sets the pending pointer-moved flag.  (The `mouseX`/`mouseY` global updates
are irrelevant to the claims and not modelled.) -/
def mousemoveHandler (st : Djs) : Djs :=
  { st with mouseMoved := true }

/-- Which optional user hooks exist on `window` (detected dynamically by
`draw?.()` resp. `Object.hasOwn(window, 'mouseMoved')`). -/
structure AnimEnv where
  hasDraw : Bool
  hasMouseMoved : Bool
deriving DecidableEq

/-- The state touched by the `animate` closure of `createCanvas`
(lines 1214–1232): the shared singleton, the captured `oldTime` baseline,
and the global `frameCount`. -/
structure AnimState where
  djs : Djs
  oldTime : ℚ
  frameCount : ℕ
deriving DecidableEq

/-- Result of one invocation of the loop driver: the updated state, whether
`requestAnimationFrame` was called again, and how often each user hook was
invoked during this invocation. -/
structure AnimOut where
  state : AnimState
  rescheduled : Bool
  drawCalls : ℕ
  mouseMovedCalls : ℕ
deriving DecidableEq

/-- `function animate(timestamp)` (lines 1217–1232), verbatim: early return
when not running, unconditional reschedule otherwise, the `elapsed >
frameInterval` throttle, the phase-preserving baseline update
`oldTime = timestamp - elapsed % frameInterval`, the optional `draw` hook,
the `mouseMoved` dispatch (note: the flag is *not* reset anywhere), and the
`frameCount` increment. -/
def animate (env : AnimEnv) (timestamp : ℚ) (s : AnimState) : AnimOut :=
  if s.djs.running = false then
    { state := s, rescheduled := false, drawCalls := 0, mouseMovedCalls := 0 }
  else
    let elapsed := timestamp - s.oldTime
    if elapsed > s.djs.frameInterval then
      { state :=
          { s with
            oldTime := timestamp - jsMod elapsed s.djs.frameInterval
            frameCount := s.frameCount + 1 }
        rescheduled := true
        drawCalls := if env.hasDraw then 1 else 0
        mouseMovedCalls :=
          if s.djs.mouseMoved && env.hasMouseMoved then 1 else 0 }
    else
      { state := s, rescheduled := true, drawCalls := 0, mouseMovedCalls := 0 }

/-- An application raindrop (`src/index.js` lines 61–64): a plain `{x, y}`
record. -/
structure Raindrop where
  x : ℚ
  y : ℚ
deriving DecidableEq

/-- `const raindropWidth = 100` (`src/index.js` line 21). -/
def raindropWidth : ℚ := 100

/-- `const raindropHeight = 100` (`src/index.js` line 23). -/
def raindropHeight : ℚ := 100

/-- `const maxRaindrops = 10` (`src/index.js` line 25). -/
def maxRaindrops : ℕ := 10

/-- The game's mutable globals (`src/index.js` lines 1–27) that the `draw`
hook reads or writes, plus the canvas `height` global fixed by
`createCanvas(600, 600)` and `bucket.width`/`bucket.height` of the loaded
bucket image.  Sound playback (`playMusic(dropSound)`) is recorded as a
play counter. -/
structure GameState where
  started : Bool
  bucketX : ℚ
  bucketY : ℚ
  bucketW : ℚ
  bucketH : ℚ
  playerScore : ℤ
  raindrops : List Raindrop
  height : ℚ
  dropSoundPlays : ℕ
deriving DecidableEq

/-- The `for (let i = 0; i < raindrops.length; i++)` loop of the game's
`draw` hook (`src/index.js` lines 92–115), verbatim:

* `raindrops[i].y += 5` (the draw of the raindrop image has no game-state
  effect and is not recorded here);
* if the advanced `y` exceeds `height`: `raindrops.splice(i, 1)` and
  `playerScore--`;
* then — on the *current* contents of the array — the collision test reads
  `raindrops[i].x` / `raindrops[i].y`.  When the splice removed the last
  element, `raindrops[i]` is `undefined` and the property access throws a
  `TypeError`, modelled as `Except.error`; otherwise a hit plays the drop
  sound, splices and increments the score.

The `fuel` argument only bounds the recursion depth: `i` increases by one
per iteration while the array never grows, so starting from `i = 0` the
loop performs at most (initial length) iterations; when fuel reaches 0 we
necessarily have `i ≥` (initial length) `≥` (current length) and the real
loop would exit normally, which is what the base case returns. -/
def drawLoop : ℕ → GameState → ℕ → Except String GameState
  | 0, g, _ => Except.ok g
  | fuel + 1, g, i =>
    if h : i < g.raindrops.length then
      let d := g.raindrops.get ⟨i, h⟩
      let d2 : Raindrop := { d with y := d.y + 5 }
      let drops1 := g.raindrops.set i d2
      let fell := d2.y > g.height
      let drops2 := if fell then drops1.eraseIdx i else drops1
      let score2 := if fell then g.playerScore - 1 else g.playerScore
      match drops2.get? i with
      | none =>
        Except.error "TypeError: Cannot read properties of undefined (reading 'x')"
      | some e =>
        let hit := rectCollision e.x e.y raindropWidth (raindropHeight - 30)
          g.bucketX g.bucketY g.bucketW g.bucketH
        let drops3 := if hit then drops2.eraseIdx i else drops2
        let score3 := if hit then score2 + 1 else score2
        let plays3 := if hit then g.dropSoundPlays + 1 else g.dropSoundPlays
        drawLoop fuel
          { g with raindrops := drops3, playerScore := score3,
                   dropSoundPlays := plays3 } (i + 1)
    else
      Except.ok g

/-- The game's `draw` hook (`src/index.js` lines 69–116).  The background,
score text and bucket image are pure drawing calls; the game state changes
only in the raindrop loop, entered when `started` is true. -/
def draw (g : GameState) : Except String GameState :=
  if g.started = false then Except.ok g
  else drawLoop g.raindrops.length g 0

/-- The `ImageData` buffer as used by `DrawImage` (`src/2d.js`
lines 327–368): dimensions plus the flat RGBA byte array, modelled as a
total function from index to value (`new ImageData` zero-fills). -/
structure ImageData where
  width : ℕ
  height : ℕ
  data : ℕ → ℕ

/-- `new ImageData(w, h)`: zero-filled buffer. -/
def ImageData.make (w h : ℕ) : ImageData :=
  { width := w, height := h, data := fun _ => 0 }

/-- `class DrawImage` (lines 327–334); the offscreen canvas and its context
only matter for `update`/`draw`, which no claim exercises. -/
structure DrawImage where
  width : ℕ
  height : ℕ
  pixels : ImageData

/-- One store `data[i] = v` into a flat buffer. -/
def writeByte (d : ℕ → ℕ) (i v : ℕ) : ℕ → ℕ :=
  fun j => if j = i then v else d j

/-- A sequence of stores, applied in program order (later stores win). -/
def applyWrites (d : ℕ → ℕ) : List (ℕ × ℕ) → (ℕ → ℕ)
  | [] => d
  | p :: rest => applyWrites (writeByte d p.1 p.2) rest

/-- The stores performed by the nested loops of `DrawImage.prototype.scale`
(lines 349–364), in program order: for each source pixel `(x, y)` the four
channel values `red`, `green`, `blue`, `alpha` are read once and written
into every destination pixel `(x*scale+dx, y*scale+dy)` of its block, at
the four consecutive byte indices of that destination pixel. -/
def scaleWrites (img : DrawImage) (s : ℕ) : List (ℕ × ℕ) :=
  (List.range img.height).flatMap fun y =>
    (List.range img.width).flatMap fun x =>
      (List.range s).flatMap fun dy =>
        (List.range s).flatMap fun dx =>
          [(((y * s + dy) * (img.width * s) + (x * s + dx)) * 4,
              img.pixels.data ((y * img.width + x) * 4)),
           (((y * s + dy) * (img.width * s) + (x * s + dx)) * 4 + 1,
              img.pixels.data ((y * img.width + x) * 4 + 1)),
           (((y * s + dy) * (img.width * s) + (x * s + dx)) * 4 + 2,
              img.pixels.data ((y * img.width + x) * 4 + 2)),
           (((y * s + dy) * (img.width * s) + (x * s + dx)) * 4 + 3,
              img.pixels.data ((y * img.width + x) * 4 + 3))]

/-- `DrawImage.prototype.scale` (lines 347–368): allocate
`new ImageData(width*scale, height*scale)`, replicate every source pixel
into a `scale × scale` block of the new buffer, then rebind `pixels` and
set `width`/`height` from the new buffer's dimensions. -/
def DrawImage.scale (img : DrawImage) (s : ℕ) : DrawImage :=
  let newImageData : ImageData :=
    { width := img.width * s, height := img.height * s
      data := applyWrites (ImageData.make (img.width * s) (img.height * s)).data
        (scaleWrites img s) }
  { width := newImageData.width, height := newImageData.height
    pixels := newImageData }

/-- A freshly initialised `__2djs` state (all defaults), used to evaluate
the library functions on concrete inputs. -/
def st0 : Djs := {}

/-- Hook environment with only a `draw` hook defined. -/
def envDraw : AnimEnv := { hasDraw := true, hasMouseMoved := false }

/-- Hook environment with only a `mouseMoved` hook defined. -/
def envMouse : AnimEnv := { hasDraw := false, hasMouseMoved := true }

/-- Loop state right after `createCanvas`: fresh singleton, baseline 0,
frame counter 0. -/
def animState0 : AnimState := { djs := st0, oldTime := 0, frameCount := 0 }

/-- Loop state after one `mousemove` event and before the next executed
tick. -/
def animStateMoved : AnimState :=
  { djs := mousemoveHandler st0, oldTime := 0, frameCount := 0 }

/-- Game state with a single raindrop about to cross the bottom edge
(canvas 600×600, bucket far away from the drop). -/
def gameCrash : GameState :=
  { started := true, bucketX := 300, bucketY := 500, bucketW := 100
    bucketH := 100, playerScore := 0, raindrops := [{ x := 0, y := 596 }]
    height := 600, dropSoundPlays := 0 }

/-- A concrete 1×1 `DrawImage` whose four channel bytes are 100, 101, 102,
103. -/
def img1 : DrawImage :=
  { width := 1, height := 1
    pixels := { width := 1, height := 1, data := fun i => 100 + i } }

/-- Claim C5: `rectCollision` returns `true` iff the four strict
inequalities of the separating-axis test all hold; it is symmetric under
swapping the two rectangles; and two rectangles sharing only an edge are
reported as non-overlapping. -/
theorem rectCollision_spec :
    (∀ x1 y1 w1 h1 x2 y2 w2 h2 : ℚ,
      rectCollision x1 y1 w1 h1 x2 y2 w2 h2 = true ↔
        (x1 < x2 + w2 ∧ x1 + w1 > x2 ∧ y1 < y2 + h2 ∧ y1 + h1 > y2)) ∧
    (∀ x1 y1 w1 h1 x2 y2 w2 h2 : ℚ,
      rectCollision x1 y1 w1 h1 x2 y2 w2 h2 =
        rectCollision x2 y2 w2 h2 x1 y1 w1 h1) ∧
    rectCollision 0 0 10 10 10 0 10 10 = false := by
  have hiff : ∀ x1 y1 w1 h1 x2 y2 w2 h2 : ℚ,
      rectCollision x1 y1 w1 h1 x2 y2 w2 h2 = true ↔
        (x1 < x2 + w2 ∧ x1 + w1 > x2 ∧ y1 < y2 + h2 ∧ y1 + h1 > y2) := by
    intro x1 y1 w1 h1 x2 y2 w2 h2
    simp [rectCollision, and_assoc]
  refine ⟨hiff, ?_, ?_⟩
  · intro x1 y1 w1 h1 x2 y2 w2 h2
    rw [Bool.eq_iff_iff, hiff, hiff]
    constructor <;> exact fun h => ⟨h.2.1, h.1, h.2.2.2, h.2.2.1⟩
  · rw [Bool.eq_false_iff, Ne, hiff]
    norm_num

/-- Claim C6: `frameRate` with no argument (`null`/`undefined`) returns the
current frame rate and changes no state; with the current value it changes
nothing; with any other value it stores the new rate and sets the interval
to `1000/fps`. -/
theorem frameRate_spec (st : Djs) (f : ℚ) :
    (frameRate none st = (st, some st.frameRate)) ∧
    (f = st.frameRate → frameRate (some f) st = (st, none)) ∧
    (f ≠ st.frameRate →
      frameRate (some f) st =
        ({ st with frameRate := f, frameInterval := 1000 / f }, none)) := by
  refine ⟨rfl, ?_, ?_⟩
  · intro h
    simp [frameRate, h]
  · intro h
    simp [frameRate, h]

/-- Witness for C6: concrete evaluations of all three branches on the
default state (current rate 60). -/
theorem frameRate_spec_witness :
    (frameRate none st0 = (st0, some st0.frameRate)) ∧
    ((60 : ℚ) = st0.frameRate ∧ frameRate (some 60) st0 = (st0, none)) ∧
    ((30 : ℚ) ≠ st0.frameRate ∧
      frameRate (some 30) st0 =
        ({ st0 with frameRate := 30, frameInterval := 1000 / 30 }, none)) :=
  ⟨(frameRate_spec st0 60).1,
    ⟨rfl, (frameRate_spec st0 60).2.1 rfl⟩,
    ⟨by norm_num [st0], (frameRate_spec st0 30).2.2 (by norm_num [st0])⟩⟩

/-- Claim C7: for colors with components in 0..255, `invert` is an
involution on the RGB channels, and `invert` preserves the alpha component
of its input. -/
theorem invert_invert_rgb (c : Color)
    (hr0 : 0 ≤ c.red) (hr1 : c.red ≤ 255)
    (hg0 : 0 ≤ c.green) (hg1 : c.green ≤ 255)
    (hb0 : 0 ≤ c.blue) (hb1 : c.blue ≤ 255) :
    (c.invert.invert.red = c.red ∧ c.invert.invert.green = c.green ∧
      c.invert.invert.blue = c.blue) ∧ c.invert.alpha = c.alpha := by
  refine ⟨⟨?_, ?_, ?_⟩, rfl⟩ <;> simp [Color.invert] <;> ring

/-- Witness for C7: the color (255, 87, 51). -/
theorem invert_invert_rgb_witness :
    (0 ≤ (makeColor 255 87 51).red ∧ (makeColor 255 87 51).red ≤ 255 ∧
      0 ≤ (makeColor 255 87 51).green ∧ (makeColor 255 87 51).green ≤ 255 ∧
      0 ≤ (makeColor 255 87 51).blue ∧ (makeColor 255 87 51).blue ≤ 255) ∧
    ((makeColor 255 87 51).invert.invert.red = (makeColor 255 87 51).red ∧
      (makeColor 255 87 51).invert.invert.green = (makeColor 255 87 51).green ∧
      (makeColor 255 87 51).invert.invert.blue = (makeColor 255 87 51).blue) ∧
    (makeColor 255 87 51).invert.alpha = (makeColor 255 87 51).alpha :=
  ⟨⟨by norm_num [makeColor], by norm_num [makeColor], by norm_num [makeColor],
      by norm_num [makeColor], by norm_num [makeColor], by norm_num [makeColor]⟩,
    (invert_invert_rgb (makeColor 255 87 51) (by norm_num [makeColor])
      (by norm_num [makeColor]) (by norm_num [makeColor])
      (by norm_num [makeColor]) (by norm_num [makeColor])
      (by norm_num [makeColor])).1,
    (invert_invert_rgb (makeColor 255 87 51) (by norm_num [makeColor])
      (by norm_num [makeColor]) (by norm_num [makeColor])
      (by norm_num [makeColor]) (by norm_num [makeColor])
      (by norm_num [makeColor])).2⟩

/-- Claim C10: `mixWith` always returns a color with alpha 255, because it
calls the constructor without an alpha argument; the inputs' alpha values
are ignored. -/
theorem mixWith_alpha (c1 c2 : Color) : (c1.mixWith c2).alpha = 255 := rfl

/-- Claim C9: drawing a not-yet-loaded image is a silent no-op: the shared
state (including the emitted context operations) is returned unchanged. -/
theorem image_not_ready_noop (img : HTMLImage) (x y : ℚ)
    (w h : Option ℚ) (st : Djs) (hnr : img.datasetLoaded ≠ some "true") :
    image img x y w h st = st := by
  simp [image, hnr]

/-- Witness for C9: a freshly requested image handle. -/
theorem image_not_ready_noop_witness :
    (loadImage "drop.png").datasetLoaded ≠ some "true" ∧
    image (loadImage "drop.png") 100 200 none none st0 = st0 :=
  ⟨by decide,
    image_not_ready_noop (loadImage "drop.png") 100 200 none none st0
      (by decide)⟩

/-- Claim C1 (code bug): `rotateAdd`'s wrap test compares the stored
angle-unit *multiplier* with the mode *constants* `DEGREES = 1` and
`RADIANS = 2`.  In degrees mode the multiplier is π/180, which equals
neither constant, so the angle never wraps: from rotation 350,
`rotateAdd(20)` yields 370, not 20.  In radians mode the multiplier is 1,
which equals `DEGREES`, so the wrap threshold is 360 instead of 2π:
from rotation 7 (> 2π), `rotateAdd(1)` yields 8 instead of wrapping. -/
theorem rotateAdd_never_wraps_in_degrees :
    (rotateAdd 20 (rotate 350 (angleMode DEGREES st0))).rotation = 370 ∧
    (rotateAdd 1 (rotate 7 (angleMode RADIANS st0))).rotation = 8 := by
  constructor <;>
    norm_num [rotateAdd, rotate, angleMode, st0, DEGREES, RADIANS, PI, TWO_PI]

/-- Counterexample for C2: after a single `mousemove` event, the executed
tick invokes the hook but leaves the pointer-moved flag `true`, and the
next executed tick — with no further pointer-move event — invokes the hook
again. -/
theorem animate_mouseMoved_flag_persists :
    (animate envMouse 20 animStateMoved).mouseMovedCalls = 1 ∧
    (animate envMouse 20 animStateMoved).state.djs.mouseMoved = true ∧
    (animate envMouse 40
      (animate envMouse 20 animStateMoved).state).mouseMovedCalls = 1 := by
  refine ⟨?_, ?_, ?_⟩ <;>
    norm_num [animate, animStateMoved, envMouse, st0, mousemoveHandler,
      jsMod, jsTrunc]

/-- Claim C2 as amended: on every executed tick, if the pointer-moved flag
is set and the hook is present, the hook is invoked exactly once — but the
flag is never cleared, so it is still `true` when the tick completes (and
hence the hook fires again on every subsequent executed tick). -/
theorem animate_mouseMoved_every_executed_tick (env : AnimEnv) (t : ℚ)
    (s : AnimState) (hrun : s.djs.running = true)
    (hflag : s.djs.mouseMoved = true) (hhook : env.hasMouseMoved = true)
    (hel : s.djs.frameInterval < t - s.oldTime) :
    (animate env t s).mouseMovedCalls = 1 ∧
    (animate env t s).state.djs.mouseMoved = true := by
  simp [animate, hrun, hflag, hhook, hel]

/-- Witness for the amended C2: the state after one `mousemove` event, at
timestamp 20 (elapsed 20 > 50/3). -/
theorem animate_mouseMoved_every_executed_tick_witness :
    animStateMoved.djs.running = true ∧
    animStateMoved.djs.mouseMoved = true ∧
    envMouse.hasMouseMoved = true ∧
    animStateMoved.djs.frameInterval < 20 - animStateMoved.oldTime ∧
    ((animate envMouse 20 animStateMoved).mouseMovedCalls = 1 ∧
      (animate envMouse 20 animStateMoved).state.djs.mouseMoved = true) :=
  ⟨rfl, rfl, rfl, by norm_num [animStateMoved, mousemoveHandler, st0],
    animate_mouseMoved_every_executed_tick envMouse 20 animStateMoved rfl rfl
      rfl (by norm_num [animStateMoved, mousemoveHandler, st0])⟩

/-- Claim C3: while running, a tick whose elapsed time is below the frame
interval is a no-op besides the reschedule; a tick whose elapsed time
exceeds the interval advances the baseline by `elapsed - (elapsed mod
interval)` (equivalently to `t - (elapsed mod interval)`), invokes the
per-frame hook iff present, and increments the frame counter by exactly
one. -/
theorem animate_throttle_phase (env : AnimEnv) (t : ℚ) (s : AnimState)
    (hrun : s.djs.running = true) :
    (t - s.oldTime < s.djs.frameInterval →
      animate env t s =
        { state := s, rescheduled := true, drawCalls := 0,
          mouseMovedCalls := 0 }) ∧
    (s.djs.frameInterval < t - s.oldTime →
      (animate env t s).state.oldTime =
          s.oldTime + ((t - s.oldTime) -
            jsMod (t - s.oldTime) s.djs.frameInterval) ∧
      (animate env t s).state.oldTime =
          t - jsMod (t - s.oldTime) s.djs.frameInterval ∧
      (animate env t s).drawCalls = (if env.hasDraw then 1 else 0) ∧
      (animate env t s).state.frameCount = s.frameCount + 1 ∧
      (animate env t s).rescheduled = true) := by
  constructor
  · intro hlt
    have hnot : ¬ (t - s.oldTime > s.djs.frameInterval) :=
      not_lt.mpr (le_of_lt hlt)
    simp [animate, hrun, hnot]
  · intro hgt
    refine ⟨?_, ?_, ?_, ?_, ?_⟩ <;> simp [animate, hrun, hgt] <;> ring

/-- Witness for C3: fps 60 (interval 50/3); at timestamp 5 the tick is a
no-op, at timestamp 20 it executes and the new baseline 50/3 preserves the
leftover phase 10/3. -/
theorem animate_throttle_phase_witness :
    animState0.djs.running = true ∧
    ((5 : ℚ) - animState0.oldTime < animState0.djs.frameInterval ∧
      animate envDraw 5 animState0 =
        { state := animState0, rescheduled := true, drawCalls := 0,
          mouseMovedCalls := 0 }) ∧
    (animState0.djs.frameInterval < (20 : ℚ) - animState0.oldTime ∧
      (animate envDraw 20 animState0).state.oldTime =
          animState0.oldTime + (((20 : ℚ) - animState0.oldTime) -
            jsMod ((20 : ℚ) - animState0.oldTime)
              animState0.djs.frameInterval) ∧
      (animate envDraw 20 animState0).state.oldTime =
          (20 : ℚ) - jsMod ((20 : ℚ) - animState0.oldTime)
            animState0.djs.frameInterval ∧
      (animate envDraw 20 animState0).drawCalls =
        (if envDraw.hasDraw then 1 else 0) ∧
      (animate envDraw 20 animState0).state.frameCount =
        animState0.frameCount + 1 ∧
      (animate envDraw 20 animState0).rescheduled = true) :=
  ⟨rfl,
    ⟨by norm_num [animState0, st0],
      (animate_throttle_phase envDraw 5 animState0 rfl).1
        (by norm_num [animState0, st0])⟩,
    ⟨by norm_num [animState0, st0],
      (animate_throttle_phase envDraw 20 animState0 rfl).2
        (by norm_num [animState0, st0])⟩⟩

/-- Claim C4 (code bug): when the raindrop that crossed the bottom edge is
the last element of the list, the `splice` leaves `raindrops[i]`
`undefined`, and the collision test's property access throws a
`TypeError` — the frame does not complete cleanly as the claim requires.
The score decrement and removal do happen before the throw. -/
theorem draw_bottom_removal_throws :
    draw gameCrash =
      Except.error "TypeError: Cannot read properties of undefined (reading 'x')" := by
  norm_num [draw, gameCrash, drawLoop, List.eraseIdx]

/-- A store sequence leaves an index unchanged if no store targets it. -/
theorem applyWrites_not_mem (l : List (ℕ × ℕ)) :
    ∀ (d : ℕ → ℕ) (i : ℕ), (∀ p ∈ l, p.1 ≠ i) → applyWrites d l i = d i := by
  induction l with
  | nil =>
    intro d i _
    rfl
  | cons p rest ih =>
    intro d i h
    rw [applyWrites, ih _ _ (fun q hq => h q (List.mem_cons_of_mem _ hq))]
    exact if_neg (Ne.symm (h p (List.mem_cons_self p rest)))

/-- If index `i` is stored to, and every store to `i` in the sequence stores
the same value `v`, then the final buffer holds `v` at `i`. -/
theorem applyWrites_unique (l : List (ℕ × ℕ)) :
    ∀ (d : ℕ → ℕ) (i v : ℕ), (i, v) ∈ l →
      (∀ p ∈ l, p.1 = i → p.2 = v) → applyWrites d l i = v := by
  induction l with
  | nil =>
    intro d i v h _
    cases h
  | cons p rest ih =>
    intro d i v hmem huniq
    by_cases hrest : (i, v) ∈ rest
    · exact ih _ _ _ hrest (fun q hq => huniq q (List.mem_cons_of_mem _ hq))
    · have hp : p = (i, v) := by
        rcases List.mem_cons.mp hmem with h | h
        · exact h.symm
        · exact absurd h hrest
      have hnone : ∀ q ∈ rest, q.1 ≠ i := by
        intro q hq hqi
        have hq2 : q.2 = v := huniq q (List.mem_cons_of_mem _ hq) hqi
        obtain ⟨q1, q2⟩ := q
        cases hqi
        cases hq2
        exact hrest hq
      rw [applyWrites, applyWrites_not_mem rest _ _ hnone, hp]
      exact if_pos rfl

/-- Uniqueness of the row/column decomposition of a flat index. -/
theorem mul_add_lt_decomp {R C Y X W : ℕ} (hC : C < W) (hX : X < W)
    (h : R * W + C = Y * W + X) : R = Y ∧ C = X := by
  have hW : 0 < W := lt_of_le_of_lt (Nat.zero_le C) hC
  have h1 : ∀ A B : ℕ, B < W → (A * W + B) / W = A := by
    intro A B hB
    rw [Nat.add_comm, Nat.mul_comm, Nat.add_mul_div_left _ _ hW,
      Nat.div_eq_of_lt hB, Nat.zero_add]
  have hRY : R = Y := by
    rw [← h1 R C hC, ← h1 Y X hX, h]
  refine ⟨hRY, ?_⟩
  rw [hRY] at h
  exact Nat.add_left_cancel h

/-- Uniqueness of quotient and remainder: `y * s + dy = n` with `dy < s`
forces `y = n / s` and `dy = n % s`. -/
theorem div_mod_decomp {y dy s n : ℕ} (hdy : dy < s) (h : y * s + dy = n) :
    y = n / s ∧ dy = n % s := by
  have hs : 0 < s := lt_of_le_of_lt (Nat.zero_le dy) hdy
  subst h
  constructor
  · rw [Nat.add_comm, Nat.mul_comm, Nat.add_mul_div_left _ _ hs,
      Nat.div_eq_of_lt hdy, Nat.zero_add]
  · rw [Nat.add_comm, Nat.mul_comm, Nat.add_mul_mod_self_left,
      Nat.mod_eq_of_lt hdy]

/-- The store at destination `(x', y')`, channel `c`, carrying the channel
value of source pixel `(x'/s, y'/s)`, occurs in the store sequence of
`scale`. -/
theorem scaleWrites_mem (img : DrawImage) (s x' y' c : ℕ) (hs : 0 < s)
    (hx : x' < img.width * s) (hy : y' < img.height * s) (hc : c < 4) :
    ((y' * (img.width * s) + x') * 4 + c,
      img.pixels.data ((y' / s * img.width + x' / s) * 4 + c)) ∈
      scaleWrites img s := by
  rw [scaleWrites]
  refine List.mem_flatMap.mpr
    ⟨y' / s, List.mem_range.mpr ((Nat.div_lt_iff_lt_mul hs).mpr hy), ?_⟩
  refine List.mem_flatMap.mpr
    ⟨x' / s, List.mem_range.mpr ((Nat.div_lt_iff_lt_mul hs).mpr hx), ?_⟩
  refine List.mem_flatMap.mpr
    ⟨y' % s, List.mem_range.mpr (Nat.mod_lt _ hs), ?_⟩
  refine List.mem_flatMap.mpr
    ⟨x' % s, List.mem_range.mpr (Nat.mod_lt _ hs), ?_⟩
  have hyy : y' / s * s + y' % s = y' := by
    rw [Nat.mul_comm]
    exact Nat.div_add_mod y' s
  have hxx : x' / s * s + x' % s = x' := by
    rw [Nat.mul_comm]
    exact Nat.div_add_mod x' s
  rw [hyy, hxx]
  interval_cases c <;> simp

/-- Conversely, any store of the `scale` sequence that targets the flat
index of destination `(x', y')`, channel `c`, stores exactly the channel
value of source pixel `(x'/s, y'/s)`. -/
theorem scaleWrites_uniq (img : DrawImage) (s x' y' c : ℕ) (hs : 0 < s)
    (hx : x' < img.width * s) (hc : c < 4) :
    ∀ p ∈ scaleWrites img s, p.1 = (y' * (img.width * s) + x') * 4 + c →
      p.2 = img.pixels.data ((y' / s * img.width + x' / s) * 4 + c) := by
  intro p hp hp1
  rw [scaleWrites] at hp
  obtain ⟨y, hym, hp⟩ := List.mem_flatMap.mp hp
  obtain ⟨x, hxm, hp⟩ := List.mem_flatMap.mp hp
  obtain ⟨dy, hdym, hp⟩ := List.mem_flatMap.mp hp
  obtain ⟨dx, hdxm, hp⟩ := List.mem_flatMap.mp hp
  rw [List.mem_range] at hym hxm hdym hdxm
  have hxlt : x * s + dx < img.width * s := by
    have h1 : x * s + dx < (x + 1) * s := by
      rw [Nat.succ_mul]
      exact Nat.add_lt_add_left hdxm _
    exact lt_of_lt_of_le h1 (Nat.mul_le_mul_right s hxm)
  simp only [List.mem_cons, List.not_mem_nil, or_false] at hp
  have main : (y * s + dy) * (img.width * s) + (x * s + dx) =
      y' * (img.width * s) + x' →
      img.pixels.data ((y * img.width + x) * 4 + c) =
        img.pixels.data ((y' / s * img.width + x' / s) * 4 + c) := by
    intro hAB
    obtain ⟨hrow, hcol⟩ := mul_add_lt_decomp hxlt hx hAB
    rw [(div_mod_decomp hdym hrow).1, (div_mod_decomp hdxm hcol).1]
  rcases hp with h | h | h | h <;> rw [h] at hp1 ⊢ <;> dsimp only at hp1 ⊢
  · have hc0 : c = 0 := by omega
    have hAB : (y * s + dy) * (img.width * s) + (x * s + dx) =
        y' * (img.width * s) + x' := by omega
    rw [hc0] at main ⊢
    simpa using main hAB
  · have hc1 : c = 1 := by omega
    have hAB : (y * s + dy) * (img.width * s) + (x * s + dx) =
        y' * (img.width * s) + x' := by omega
    rw [hc1] at main ⊢
    exact main hAB
  · have hc2 : c = 2 := by omega
    have hAB : (y * s + dy) * (img.width * s) + (x * s + dx) =
        y' * (img.width * s) + x' := by omega
    rw [hc2] at main ⊢
    exact main hAB
  · have hc3 : c = 3 := by omega
    have hAB : (y * s + dy) * (img.width * s) + (x * s + dx) =
        y' * (img.width * s) + x' := by omega
    rw [hc3] at main ⊢
    exact main hAB

/-- Claim C8: `scale` yields a `(s·w) × (s·h)` buffer in which destination
pixel `(x', y')` carries the RGBA of source pixel `(⌊x'/s⌋, ⌊y'/s⌋)`
(every source pixel is replicated into an `s × s` block), and the image's
`width`/`height` are rebound to the new dimensions. -/
theorem scale_nearest_neighbor (img : DrawImage) (s x' y' c : ℕ)
    (hs : 0 < s) (hx : x' < img.width * s) (hy : y' < img.height * s)
    (hc : c < 4) :
    (img.scale s).width = img.width * s ∧
    (img.scale s).height = img.height * s ∧
    (img.scale s).pixels.data ((y' * (img.width * s) + x') * 4 + c) =
      img.pixels.data ((y' / s * img.width + x' / s) * 4 + c) := by
  refine ⟨rfl, rfl, ?_⟩
  exact applyWrites_unique _ _ _ _
    (scaleWrites_mem img s x' y' c hs hx hy hc)
    (scaleWrites_uniq img s x' y' c hs hx hc)

/-- Witness for C8: scaling the 1×1 image `img1` by 2; destination pixel
(1,1), alpha channel.  The final conjunct evaluates the scaled buffer
outright: all four destination pixels carry the source pixel's bytes. -/
theorem scale_nearest_neighbor_witness :
    (0 < 2 ∧ 1 < img1.width * 2 ∧ 1 < img1.height * 2 ∧ 3 < 4) ∧
    ((img1.scale 2).width = img1.width * 2 ∧
      (img1.scale 2).height = img1.height * 2 ∧
      (img1.scale 2).pixels.data ((1 * (img1.width * 2) + 1) * 4 + 3) =
        img1.pixels.data ((1 / 2 * img1.width + 1 / 2) * 4 + 3)) ∧
    (img1.scale 2).pixels.data ((1 * (img1.width * 2) + 1) * 4 + 3) = 103 :=
  ⟨⟨by decide, by decide, by decide, by decide⟩,
    scale_nearest_neighbor img1 2 1 1 3 (by decide) (by decide) (by decide)
      (by decide),
    by decide⟩
